import Mathlib

/-!
Verification of the TailGrant grant-orchestration engine.

This file gives a shallow embedding of the core state machines of the
TailGrant repository (GrantWorkflow, ApprovalWorkflow,
DeviceTagManagerWorkflow, ReconciliationWorkflow and the grant-type
configuration store) and proves properties about them.  Durable-execution
side effects (activities, signals) are modelled by explicit environments
and by recording the emitted calls in result values; machine time is
modelled with natural numbers.
-/

set_option maxHeartbeats 1000000

namespace TailGrant

/-- Risk levels of a grant type.  In Go this is an int enum with
low = 0, medium = 1, high = 2. -/
inductive RiskLevel where
  | low
  | medium
  | high
deriving DecidableEq, Repr

/-- Numeric value of a risk level, mirroring the Go iota constants. -/
def RiskLevel.toNat : RiskLevel → Nat
  | .low => 0
  | .medium => 1
  | .high => 2

/-- ASCII whitespace recognized by TrimSpace, modelled for the ASCII
range. -/
def isSpaceChar (c : Char) : Bool :=
  c = ' ' ∨ c = Char.ofNat 9 ∨ c = Char.ofNat 10 ∨ c = Char.ofNat 11 ∨
  c = Char.ofNat 12 ∨ c = Char.ofNat 13

/-- Lowercase one character, modelled for the ASCII range. -/
def lowerChar (c : Char) : Char :=
  if 65 ≤ c.toNat ∧ c.toNat ≤ 90 then Char.ofNat (c.toNat + 32) else c

/-- TrimSpace then ToLower, on the underlying character list. -/
def trimLower (s : String) : List Char :=
  (((s.data.dropWhile isSpaceChar).reverse.dropWhile isSpaceChar).reverse).map lowerChar

/-- ParseRiskLevel from types.go: switch on the trimmed, lowercased
input; unrecognized strings default to low. -/
def ParseRiskLevel (s : String) : RiskLevel :=
  let v := trimLower s
  if v = "medium".data then RiskLevel.medium
  else if v = "high".data then RiskLevel.high
  else RiskLevel.low

/-- Grant status enum from types.go. -/
inductive GrantStatus where
  | pendingApproval
  | active
  | expired
  | revoked
  | denied
deriving DecidableEq, Repr

/-- A posture attribute carried by a grant type.  The Go value field has
type any; the claims only compare keys and targets, so the value is
modelled as a string. -/
structure PostureAttribute where
  key : String
  value : String
  target : String
deriving DecidableEq, Repr

/-- The assets a grant holds on a device, as stored by the
DeviceTagManagerWorkflow per grant id. -/
structure GrantAssets where
  tags : List String
  postureAttributes : List PostureAttribute
  requesterNodeID : String
deriving DecidableEq, Repr

/-- Go zero value of GrantAssets, returned by a map lookup on a missing
key. -/
def GrantAssets.zero : GrantAssets :=
  { tags := [], postureAttributes := [], requesterNodeID := "" }

/-- AddGrant signal payload. -/
structure AddGrantSignal where
  grantID : String
  tags : List String
  postureAttributes : List PostureAttribute
  requesterNodeID : String
deriving DecidableEq, Repr

/-- User projection returned by the GetUser activity. -/
structure UserInfo where
  id : String
  role : String
  status : String
deriving DecidableEq, Repr

/-- Optional user-role configuration of a grant type. -/
structure UserAction where
  role : String
deriving DecidableEq, Repr

/-- Action kind strings used by the grant workflow switch. -/
def actionTag : String := "tag"

/-- Action kind for user role elevation. -/
def actionUserRole : String := "user_role"

/-- Action kind for restoring a suspended user. -/
def actionUserRestore : String := "user_restore"

/-- A grant type, loaded from configuration. -/
structure GrantType where
  name : String
  description : String
  tags : List String
  postureAttributes : List PostureAttribute
  maxDuration : Nat
  riskLevel : RiskLevel
  approvers : List String
  action : String
  userAction : Option UserAction
deriving DecidableEq, Repr

/-- A grant request, the immutable workflow input. -/
structure GrantRequest where
  id : String
  requester : String
  requesterNode : String
  grantTypeName : String
  targetNodeID : String
  targetUserID : String
  duration : Nat
  reason : String
deriving DecidableEq, Repr

/-- The evolving, queryable grant state. -/
structure GrantState where
  request : GrantRequest
  status : GrantStatus
  approvedBy : String
  activatedAt : Nat
  expiresAt : Nat
  revokedBy : String
  revokedAt : Nat
  originalRole : String
deriving DecidableEq, Repr

/-- Result of the ApprovalWorkflow child. -/
structure ApprovalResult where
  approved : Bool
  approvedBy : String
  deniedBy : String
  reason : String
deriving DecidableEq, Repr

/-- Fresh grant state registered at the start of GrantWorkflow. -/
def initGrantState (req : GrantRequest) : GrantState :=
  { request := req
    status := GrantStatus.pendingApproval
    approvedBy := ""
    activatedAt := 0
    expiresAt := 0
    revokedBy := ""
    revokedAt := 0
    originalRole := "" }

/-!  The tag-application kernel of the DeviceTagManagerWorkflow. -/

/-- Lexicographic comparison of character lists by code point, the
order Go uses on strings (UTF-8 byte order agrees with code point
order). -/
def leChars : List Char → List Char → Bool
  | [], _ => true
  | _ :: _, [] => false
  | a :: as, b :: bs =>
      if a.toNat < b.toNat then true
      else if b.toNat < a.toNat then false
      else leChars as bs

/-- String comparison used by sort.Strings, as an executable function
on the underlying character lists. -/
def strLe (a b : String) : Bool := leChars a.data b.data

/-- The sorting relation of sort.Strings. -/
def strLeRel (a b : String) : Prop := strLe a b = true

instance strLeRel.decidableRel : DecidableRel strLeRel := fun a b =>
  inferInstanceAs (Decidable (strLe a b = true))

theorem leChars_total (a b : List Char) : leChars a b = true ∨ leChars b a = true := by
  induction a generalizing b with
  | nil => left; rfl
  | cons x xs ih =>
      cases b with
      | nil => right; rfl
      | cons y ys =>
          by_cases hxy : x.toNat < y.toNat
          · left; simp [leChars, hxy]
          · by_cases hyx : y.toNat < x.toNat
            · right; simp [leChars, hyx]
            · rcases ih ys with h | h
              · left; simp [leChars, hxy, hyx, h]
              · right; simp [leChars, hxy, hyx, h]

theorem leChars_trans (a b c : List Char) (hab : leChars a b = true)
    (hbc : leChars b c = true) : leChars a c = true := by
  induction a generalizing b c with
  | nil => rfl
  | cons x xs ih =>
      cases b with
      | nil => simp [leChars] at hab
      | cons y ys =>
          cases c with
          | nil => simp [leChars] at hbc
          | cons z zs =>
              simp only [leChars] at hab hbc ⊢
              by_cases hxy : x.toNat < y.toNat
              · by_cases hyz : y.toNat < z.toNat
                · rw [if_pos (show x.toNat < z.toNat by omega)]
                · by_cases hzy : z.toNat < y.toNat
                  · rw [if_neg hyz, if_pos hzy] at hbc
                    exact absurd hbc (by simp)
                  · rw [if_pos (show x.toNat < z.toNat by omega)]
              · by_cases hyx : y.toNat < x.toNat
                · rw [if_neg hxy, if_pos hyx] at hab
                  exact absurd hab (by simp)
                · by_cases hyz : y.toNat < z.toNat
                  · rw [if_pos (show x.toNat < z.toNat by omega)]
                  · by_cases hzy : z.toNat < y.toNat
                    · rw [if_neg hyz, if_pos hzy] at hbc
                      exact absurd hbc (by simp)
                    · rw [if_neg hxy, if_neg hyx] at hab
                      rw [if_neg hyz, if_neg hzy] at hbc
                      rw [if_neg (show ¬ x.toNat < z.toNat by omega),
                        if_neg (show ¬ z.toNat < x.toNat by omega)]
                      exact ih ys zs hab hbc

instance strLeRel.isTotal : IsTotal String strLeRel :=
  ⟨fun a b => leChars_total a.data b.data⟩

instance strLeRel.isTrans : IsTrans String strLeRel :=
  ⟨fun a b c => leChars_trans a.data b.data c.data⟩

/-- computeDesiredTags: strip removed tags from the current device tags,
union in all active grant tags, return the sorted key set.  The Go map
key set is modelled by List.dedup; sort.Strings by insertionSort. -/
def computeDesiredTags (currentTags : List String)
    (activeGrants : List (String × GrantAssets))
    (removedTags : List String) : List String :=
  let surviving := currentTags.filter (fun t => decide (t ∉ removedTags))
  let seen := (surviving ++ activeGrants.flatMap (fun g => g.2.tags)).dedup
  List.insertionSort strLeRel seen

/-- applyTags as run by the tag manager: skip the write entirely when no
active grant carries tags and nothing was removed; otherwise set the
device tags to the computed desired list.  Returns the argument of the
SetDeviceTags call, or none when the call is skipped. -/
def applyTagsCall (currentTags : List String)
    (activeGrants : List (String × GrantAssets))
    (removedTags : List String) : Option (List String) :=
  let hasTags := activeGrants.any (fun g => ¬ g.2.tags.isEmpty)
  if ¬ hasTags ∧ removedTags = [] then none
  else some (computeDesiredTags currentTags activeGrants removedTags)

/-!  ApprovalWorkflow: the approval gate loop. -/

/-- Events the approval gate can observe, in arrival order. -/
inductive ApprovalEvent where
  | approve (approvedBy : String)
  | deny (deniedBy : String) (reason : String)
  | timerFire
deriving DecidableEq, Repr

/-- The approval gate loop: process events in order until one decides.
A self-approval or a non-approver approval (with a non-empty approver
set) is rejected and the loop continues; a valid approval, a denial or
the 24 hour timer resolves the gate.  Returns none when no event
decided. -/
def runApproval (approvers : List String) (requesterLogin : String) :
    List ApprovalEvent → Option ApprovalResult
  | [] => none
  | ApprovalEvent.approve b :: rest =>
      if b = requesterLogin then
        runApproval approvers requesterLogin rest
      else if ¬ b ∈ approvers ∧ approvers ≠ [] then
        runApproval approvers requesterLogin rest
      else
        some { approved := true, approvedBy := b, deniedBy := "", reason := "" }
  | ApprovalEvent.deny b r :: _ =>
      some { approved := false, approvedBy := "", deniedBy := b, reason := r }
  | ApprovalEvent.timerFire :: _ =>
      some { approved := false, approvedBy := "", deniedBy := ""
             reason := "approval timed out" }

/-!  The active phase of GrantWorkflow: a selector loop over a durable
timer and the revoke and extend signal channels. -/

/-- Events the active loop can observe.  Each carries the workflow time
at which it is processed. -/
inductive ActiveEvent where
  | timerFire
  | revoke (revokedBy : String) (reason : String)
  | extend (extendedBy : String) (duration : Nat)
deriving DecidableEq, Repr

/-- One iteration of the active selector loop.  Once the status leaves
active the loop has exited and later events are not received. -/
def activeStep (maxDuration : Nat) (s : GrantState) (e : Nat × ActiveEvent) : GrantState :=
  if s.status ≠ GrantStatus.active then s
  else
    match e.2 with
    | ActiveEvent.timerFire => { s with status := GrantStatus.expired }
    | ActiveEvent.revoke b _ =>
        { s with status := GrantStatus.revoked, revokedBy := b, revokedAt := e.1 }
    | ActiveEvent.extend _ d =>
        let d := if maxDuration > 0 ∧ d > maxDuration then maxDuration else d
        { s with expiresAt := e.1 + d }

/-- Activation of the grant: status active, activatedAt now,
expiresAt now plus the requested duration. -/
def activateState (s : GrantState) (now duration : Nat) : GrantState :=
  { s with status := GrantStatus.active, activatedAt := now
           expiresAt := now + duration }

/-- Run the active loop over a sequence of timed events. -/
def runActive (maxDuration : Nat) (s : GrantState) (events : List (Nat × ActiveEvent)) : GrantState :=
  events.foldl (activeStep maxDuration) s

/-- The largest time occurring in an event sequence, floored at a. -/
def eventHorizon (a : Nat) (events : List (Nat × ActiveEvent)) : Nat :=
  events.foldl (fun m e => max m e.1) a

/-!  GrantWorkflow as a whole, with activity outcomes supplied by an
environment and the emitted side-effect calls recorded in the result. -/

/-- Side-effect calls of the activation phase. -/
inductive EffectAction where
  | signalAddGrant (nodeID : String) (sig : AddGrantSignal)
  | getUser (userID : String)
  | setUserRole (userID : String) (role : String)
  | restoreUser (userID : String)
deriving DecidableEq, Repr

/-- Side-effect calls of the deactivation phase. -/
inductive RevertAction where
  | signalRemoveGrant (tagMgrID : String) (grantID : String)
  | setUserRole (userID : String) (role : String)
  | suspendUser (userID : String)
deriving DecidableEq, Repr

/-- Environment of one GrantWorkflow run: the approval child result, the
outcomes of the activation activities after their retries, the
activation instant and the events observed by the active loop. -/
structure GrantEnv where
  approval : ApprovalResult
  signalTagMgrOk : Bool
  getUserResult : Option UserInfo
  setRoleOk : Bool
  restoreOk : Bool
  activationTime : Nat
  events : List (Nat × ActiveEvent)
deriving DecidableEq, Repr

/-- Observable outcome of a GrantWorkflow run: the returned state, the
returned error if any, and the side-effect calls that were issued. -/
structure GrantOutcome where
  state : GrantState
  error : Option String
  effects : List EffectAction
  reverts : List RevertAction
deriving DecidableEq, Repr

/-- Phase 3 of GrantWorkflow: apply the effect for the action kind.
On success returns the updated state, the issued calls and the tag
manager id; on failure the updated state, the issued calls and the
error message. -/
def phase3 (req : GrantRequest) (gt : GrantType) (env : GrantEnv) (action : String)
    (st : GrantState) :
    Except (GrantState × List EffectAction × String)
      (GrantState × List EffectAction × String) :=
  if action = actionTag then
    let eff := EffectAction.signalAddGrant req.targetNodeID
      { grantID := req.id, tags := gt.tags, postureAttributes := gt.postureAttributes
        requesterNodeID := req.requesterNode }
    if env.signalTagMgrOk then
      Except.ok (st, [eff], "device-tags-" ++ req.targetNodeID)
    else
      Except.error (st, [eff], "signal-with-start tag manager")
  else if action = actionUserRole then
    match gt.userAction with
    | none => Except.error (st, [], "user_role grant type missing userAction config")
    | some ua =>
        match env.getUserResult with
        | none => Except.error (st, [EffectAction.getUser req.targetUserID],
            "get user for role elevation")
        | some user =>
            let st := { st with originalRole := user.role }
            let effs := [EffectAction.getUser req.targetUserID,
              EffectAction.setUserRole req.targetUserID ua.role]
            if env.setRoleOk then Except.ok (st, effs, "")
            else Except.error (st, effs, "set user role")
  else if action = actionUserRestore then
    if env.restoreOk then Except.ok (st, [EffectAction.restoreUser req.targetUserID], "")
    else Except.error (st, [EffectAction.restoreUser req.targetUserID], "restore user")
  else
    Except.ok (st, [], "")

/-- Phase 5 of GrantWorkflow: the reversal calls issued after the active
loop exits.  Failures of these calls are logged only, so the calls are
recorded unconditionally. -/
def revertPhase (req : GrantRequest) (action : String) (st : GrantState)
    (tagMgrID : String) : List RevertAction :=
  if action = actionTag then
    [RevertAction.signalRemoveGrant tagMgrID req.id]
  else if action = actionUserRole then
    if st.originalRole = "" then []
    else [RevertAction.setUserRole req.targetUserID st.originalRole]
  else if action = actionUserRestore then
    [RevertAction.suspendUser req.targetUserID]
  else []

/-- Phases 3 to 6 of GrantWorkflow, entered once approval (if any) has
passed. -/
def grantWorkflowActivate (req : GrantRequest) (gt : GrantType) (env : GrantEnv)
    (state0 : GrantState) : GrantOutcome :=
  let action := if gt.action = "" then actionTag else gt.action
  match phase3 req gt env action state0 with
  | Except.error (st, effs, msg) =>
      { state := st, error := some msg, effects := effs, reverts := [] }
  | Except.ok (st, effs, tagMgrID) =>
      let activated := activateState st env.activationTime req.duration
      let final := runActive gt.maxDuration activated env.events
      if final.status = GrantStatus.active then
        { state := final, error := none, effects := effs, reverts := [] }
      else
        { state := final, error := none, effects := effs
          reverts := revertPhase req action final tagMgrID }

/-- GrantWorkflow from workflow.go: approval gate for non-low risk,
then effect application, activation, the active loop and reversal. -/
def grantWorkflow (req : GrantRequest) (gt : GrantType) (env : GrantEnv) : GrantOutcome :=
  let state0 := initGrantState req
  if gt.riskLevel.toNat > RiskLevel.low.toNat then
    if ¬ env.approval.approved then
      { state := { state0 with status := GrantStatus.denied }, error := none
        effects := [], reverts := [] }
    else
      grantWorkflowActivate req gt env { state0 with approvedBy := env.approval.approvedBy }
  else
    grantWorkflowActivate req gt env state0

/-!  DeviceTagManagerWorkflow: per-device signal loop and posture
attribute helpers. -/

/-- State of the device tag manager.  The Go map from grant id to assets
is modelled as an association list. -/
structure DeviceTagManagerState where
  nodeID : String
  activeGrants : List (String × GrantAssets)
deriving DecidableEq, Repr

/-- Insert or replace a key in the active-grants map. -/
def grantsInsert (m : List (String × GrantAssets)) (k : String) (v : GrantAssets) :
    List (String × GrantAssets) :=
  if m.any (fun p => p.1 = k) then
    m.map (fun p => if p.1 = k then (k, v) else p)
  else
    m ++ [(k, v)]

/-- Remove a key from the active-grants map. -/
def grantsErase (m : List (String × GrantAssets)) (k : String) :
    List (String × GrantAssets) :=
  m.filter (fun p => decide (p.1 ≠ k))

/-- Look up a key, returning the Go zero value when absent. -/
def grantsGet (m : List (String × GrantAssets)) (k : String) : GrantAssets :=
  ((m.find? (fun p => p.1 = k)).map (fun p => p.2)).getD GrantAssets.zero

/-- Signals the tag manager receives. -/
inductive TagManagerSignal where
  | add (sig : AddGrantSignal)
  | remove (grantID : String)
  | sync
deriving DecidableEq, Repr

/-- State update performed by one signal handler of the tag manager. -/
def tagManagerHandle (s : DeviceTagManagerState) : TagManagerSignal → DeviceTagManagerState
  | TagManagerSignal.add sig =>
      let assets : GrantAssets :=
        { tags := sig.tags, postureAttributes := sig.postureAttributes
          requesterNodeID := sig.requesterNodeID }
      { s with activeGrants := grantsInsert s.activeGrants sig.grantID assets }
  | TagManagerSignal.remove grantID =>
      { s with activeGrants := grantsErase s.activeGrants grantID }
  | TagManagerSignal.sync => s

/-- Possible fates of a tag manager run over a finite signal sequence. -/
inductive ManagerOutcome where
  | completed (s : DeviceTagManagerState)
  | continuedAsNew (s : DeviceTagManagerState)
  | running (s : DeviceTagManagerState)
deriving DecidableEq, Repr

/-- Signal threshold after which the manager continues as new. -/
def tagManagerContinueAsNewThreshold : Nat := 1000

/-- The tag manager main loop: after each processed signal, complete if
no active grants remain, continue-as-new past the signal threshold,
otherwise keep looping.  With no pending signal the manager stays
running. -/
def runTagManager (s : DeviceTagManagerState) (signalCount : Nat) :
    List TagManagerSignal → ManagerOutcome
  | [] => ManagerOutcome.running s
  | sig :: rest =>
      let s' := tagManagerHandle s sig
      let n := signalCount + 1
      if s'.activeGrants.length = 0 then ManagerOutcome.completed s'
      else if n ≥ tagManagerContinueAsNewThreshold then ManagerOutcome.continuedAsNew s'
      else runTagManager s' n rest

/-- resolvePostureTarget: a target-scoped attribute lands on the target
device of the grant, anything else on the requester device. -/
def resolvePostureTarget (targetNodeID : String) (pa : PostureAttribute)
    (requesterNodeID : String) : String :=
  if pa.target = "target" then targetNodeID else requesterNodeID

/-- orphanedPostureAttributes: the attributes of the removed grant whose
resolved device and key pair is not claimed by any remaining active
grant. -/
def orphanedPostureAttributes (removed : GrantAssets)
    (active : List (String × GrantAssets)) (targetNodeID : String) :
    List PostureAttribute :=
  let claimed := active.flatMap (fun g =>
    g.2.postureAttributes.map (fun pa =>
      (resolvePostureTarget targetNodeID pa g.2.requesterNodeID, pa.key)))
  removed.postureAttributes.filter (fun pa =>
    decide ((resolvePostureTarget targetNodeID pa removed.requesterNodeID, pa.key) ∉ claimed))

/-!  ReconciliationWorkflow: the per-device sweep step. -/

/-- Minimal device projection used by the reconciler. -/
structure DeviceInfo where
  nodeID : String
  tags : List String
deriving DecidableEq, Repr

/-- partitionTags splits device tags into grant-managed tags and all
remaining tags, keeping order. -/
def partitionTags (tags : List String) (grantTagSet : List String) :
    List String × List String :=
  (tags.filter (fun t => decide (t ∈ grantTagSet)),
   tags.filter (fun t => decide (t ∉ grantTagSet)))

/-- tagsMatch: the observed grant tags equal the expected set, compared
by size and membership.  The expected argument models a Go map key set
and is assumed duplicate free. -/
def tagsMatch (actual : List String) (expected : List String) : Bool :=
  actual.length = expected.length ∧ ∀ t ∈ actual, t ∈ expected

/-- Calls the reconciler can issue for one device. -/
inductive ReconcileAction where
  | setTags (nodeID : String) (tags : List String)
  | deletePosture (nodeID : String) (key : String)
  | signalSync (nodeID : String)
deriving DecidableEq, Repr

/-- One device step of the reconciliation sweep.  The posture fetch is
none when the GetPostureAttributes activity failed after retries;
probe1 and probe2 are the two CheckWorkflowExists results; queryResult
is none when querying the live manager failed. -/
def reconcileDevice (grantTagSet grantPostureKeySet : List String)
    (device : DeviceInfo) (postureFetch : Option (List String))
    (probe1 probe2 : Bool)
    (queryResult : Option (List (String × GrantAssets))) : List ReconcileAction :=
  let parts := partitionTags device.tags grantTagSet
  let grantTags := parts.1
  let otherTags := parts.2
  let hasGrantTags := ¬ grantTags.isEmpty
  let stalePostureKeys :=
    if grantPostureKeySet.isEmpty then []
    else
      match postureFetch with
      | some keys => keys.filter (fun k => decide (k ∈ grantPostureKeySet))
      | none => []
  let hasGrantPosture := ¬ stalePostureKeys.isEmpty
  if ¬ hasGrantTags ∧ ¬ hasGrantPosture then []
  else if ¬ probe1 then
    if probe2 then []
    else
      (if hasGrantTags then [ReconcileAction.setTags device.nodeID otherTags] else [])
        ++ stalePostureKeys.map (fun k => ReconcileAction.deletePosture device.nodeID k)
  else
    match queryResult with
    | none => [ReconcileAction.signalSync device.nodeID]
    | some activeGrants =>
        let expectedGrantTags := (activeGrants.flatMap (fun g => g.2.tags)).dedup
        let tagDrift := hasGrantTags ∧ ¬ tagsMatch grantTags expectedGrantTags
        let expectedPostureKeys := (activeGrants.flatMap (fun g =>
          g.2.postureAttributes.filter (fun pa => pa.target = "target"))).map
            (fun pa => pa.key)
        let postureDrift := stalePostureKeys.any (fun k => decide (k ∉ expectedPostureKeys))
        if tagDrift ∨ postureDrift then [ReconcileAction.signalSync device.nodeID]
        else []

/-!  The YAML grant type store: validation at config load. -/

/-- Posture attribute as written in configuration.  A missing value is
none, mirroring a nil any in Go. -/
structure PostureAttributeConfig where
  key : String
  value : Option String
  target : String
deriving DecidableEq, Repr

/-- User action as written in configuration. -/
structure UserActionConfig where
  role : String
deriving DecidableEq, Repr

/-- One grant type entry of the configuration document. -/
structure GrantTypeConfig where
  name : String
  description : String
  tags : List String
  postureAttributes : List PostureAttributeConfig
  maxDuration : String
  riskLevel : String
  approvers : List String
  action : String
  userAction : Option UserActionConfig
deriving DecidableEq, Repr

/-- Whether the first list is a prefix of the second, the model of the
prefix tests on strings. -/
def hasPrefixChars : List Char → List Char → Bool
  | [], _ => true
  | _ :: _, [] => false
  | p :: ps, c :: cs => p = c ∧ hasPrefixChars ps cs

/-- ASCII letter test from tagmanager.go. -/
def isAlphaChar (c : Char) : Bool :=
  (Char.toNat 'a' ≤ c.toNat ∧ c.toNat ≤ Char.toNat 'z') ∨
  (Char.toNat 'A' ≤ c.toNat ∧ c.toNat ≤ Char.toNat 'Z')

/-- ASCII digit test from tagmanager.go. -/
def isNumChar (c : Char) : Bool :=
  Char.toNat '0' ≤ c.toNat ∧ c.toNat ≤ Char.toNat '9'

/-- validateTag: a tag must start with tag:, the remaining name must be
non empty, start with a letter and contain only letters, digits and
dashes. -/
def validateTag (tag : String) : Except String Unit :=
  if ¬ hasPrefixChars "tag:".data tag.data then
    Except.error ("tag " ++ tag ++ " must start with tag:")
  else
    match tag.data.drop 4 with
    | [] => Except.error ("tag " ++ tag ++ " has empty name")
    | c :: cs =>
        if ¬ isAlphaChar c then
          Except.error ("tag " ++ tag ++ " name must start with a letter")
        else if (c :: cs).all (fun ch => isAlphaChar ch ∨ isNumChar ch ∨ ch = '-') then
          Except.ok ()
        else
          Except.error ("tag " ++ tag ++ " contains invalid character")

/-- validatePostureAttribute: key must start with custom:, the value
must be present and the target must be empty, requester or target. -/
def validatePostureAttribute (pa : PostureAttributeConfig) : Except String Unit :=
  if ¬ hasPrefixChars "custom:".data pa.key.data then
    Except.error ("posture attribute key " ++ pa.key ++ " must start with custom:")
  else if pa.value = none then
    Except.error ("posture attribute " ++ pa.key ++ " must have a value")
  else if pa.target = "" ∨ pa.target = "requester" ∨ pa.target = "target" then
    Except.ok ()
  else
    Except.error ("posture attribute " ++ pa.key ++ " has invalid target")

/-- convertPostureAttributes: an empty target defaults to requester. -/
def convertPostureAttributes (configs : List PostureAttributeConfig) :
    List PostureAttribute :=
  configs.map (fun c =>
    { key := c.key, value := c.value.getD ""
      target := if c.target = "" then "requester" else c.target })

/-- The roles accepted for a user role elevation. -/
def validRoles : List String :=
  ["owner", "member", "admin", "it-admin", "network-admin", "billing-admin", "auditor"]

/-- Run a list of validations, failing on the first error. -/
def validateAll {α : Type} (f : α → Except String Unit) : List α → Except String Unit
  | [] => Except.ok ()
  | x :: xs =>
      match f x with
      | Except.ok _ => validateAll f xs
      | Except.error e => Except.error e

/-- Build one grant type from its configuration, running every check of
NewYAMLGrantTypeStore in source order.  Duration parsing is the Go
standard library and is supplied as a function argument. -/
def buildGrantType (parseDur : String → Option Nat) (c : GrantTypeConfig) :
    Except String GrantType :=
  match parseDur c.maxDuration with
  | none => Except.error ("grant type " ++ c.name ++ " invalid maxDuration")
  | some dur =>
      let action := if c.action = "" then actionTag else c.action
      let actionCheck : Except String Unit :=
        if action = actionTag then
          if c.tags.length = 0 ∧ c.postureAttributes.length = 0 then
            Except.error ("grant type " ++ c.name ++
              " tag action must have at least one tag or posture attribute")
          else
            match validateAll validateTag c.tags with
            | Except.error e => Except.error e
            | Except.ok _ => validateAll validatePostureAttribute c.postureAttributes
        else if action = actionUserRole then
          match c.userAction with
          | none => Except.error ("grant type " ++ c.name ++
              " user_role action requires userAction.role")
          | some ua =>
              if ua.role = "" then
                Except.error ("grant type " ++ c.name ++
                  " user_role action requires userAction.role")
              else if ua.role ∈ validRoles then Except.ok ()
              else Except.error ("grant type " ++ c.name ++ " invalid role")
        else if action = actionUserRestore then Except.ok ()
        else Except.error ("grant type " ++ c.name ++ " unknown action")
      match actionCheck with
      | Except.error e => Except.error e
      | Except.ok _ =>
          if (ParseRiskLevel c.riskLevel).toNat > RiskLevel.low.toNat ∧
              c.approvers.length = 0 then
            Except.error ("grant type " ++ c.name ++
              " medium or high risk requires at least one approver")
          else
            Except.ok
              { name := c.name, description := c.description, tags := c.tags
                postureAttributes := convertPostureAttributes c.postureAttributes
                maxDuration := dur, riskLevel := ParseRiskLevel c.riskLevel
                approvers := c.approvers, action := action
                userAction :=
                  if action = actionUserRole then
                    c.userAction.map (fun ua => { role := ua.role })
                  else none }

/-- NewYAMLGrantTypeStore: build every grant type, rejecting duplicate
names, returning the stored grant types in configuration order. -/
def NewYAMLGrantTypeStore (parseDur : String → Option Nat)
    (configs : List GrantTypeConfig) : Except String (List GrantType) :=
  configs.foldlM (fun acc c =>
    match buildGrantType parseDur c with
    | Except.error e => Except.error e
    | Except.ok gt =>
        if acc.any (fun g => g.name = gt.name) then
          Except.error ("duplicate grant type " ++ gt.name)
        else
          Except.ok (acc ++ [gt])) []

/-!  Helper lemmas about the tag-application kernel. -/

/-- Membership in computeDesiredTags: a tag is desired iff it is a
current tag that was not removed, or a tag of some active grant. -/
theorem mem_computeDesiredTags (c : List String) (g : List (String × GrantAssets))
    (r : List String) (t : String) :
    t ∈ computeDesiredTags c g r ↔ ((t ∈ c ∧ t ∉ r) ∨ ∃ p ∈ g, t ∈ p.2.tags) := by
  unfold computeDesiredTags
  rw [(List.perm_insertionSort _ _).mem_iff, List.mem_dedup, List.mem_append]
  simp [List.mem_filter, List.mem_flatMap]

/-- computeDesiredTags returns a sorted list. -/
theorem sorted_computeDesiredTags (c : List String) (g : List (String × GrantAssets))
    (r : List String) : (computeDesiredTags c g r).Sorted strLeRel :=
  List.sorted_insertionSort _ _

/-- computeDesiredTags returns a duplicate-free list. -/
theorem nodup_computeDesiredTags (c : List String) (g : List (String × GrantAssets))
    (r : List String) : (computeDesiredTags c g r).Nodup :=
  ((List.perm_insertionSort _ _).nodup_iff).mpr (List.nodup_dedup _)

/-- C4: computeDesiredTags returns exactly the sorted duplicate-free
list of the set of surviving current tags unioned with all active grant
tags, matching the tag-application algorithm of the specification. -/
theorem computeDesiredTags_spec (c : List String) (g : List (String × GrantAssets))
    (r : List String) :
    (computeDesiredTags c g r).Sorted strLeRel ∧
    (computeDesiredTags c g r).Nodup ∧
    ∀ t, t ∈ computeDesiredTags c g r ↔ ((t ∈ c ∧ t ∉ r) ∨ ∃ p ∈ g, t ∈ p.2.tags) :=
  ⟨sorted_computeDesiredTags c g r, nodup_computeDesiredTags c g r,
    mem_computeDesiredTags c g r⟩

/-- C2 counterexample: a device carrying tag:admin whose only active
grant uses tag:other.  Processing a Sync signal runs tag application
with an empty removed set, and the SetDeviceTags call it issues still
contains tag:admin: the unclaimed grant-managed tag is not removed. -/
theorem sync_keeps_unclaimed_tag :
    applyTagsCall ["tag:admin"]
      [("g1", { tags := ["tag:other"], postureAttributes := [], requesterNodeID := "" })] []
      = some ["tag:admin", "tag:other"] := by decide

/-- C2 amended: on Sync the manager re-runs tag application with an
empty removed set; when some active grant carries tags, the device tags
are set to the desired list, which preserves every current tag (so a
grant-managed tag claimed by no active grant survives) and re-adds
every active grant tag. -/
theorem sync_preserves_current_tags (current : List String)
    (grants : List (String × GrantAssets))
    (h : ∃ p ∈ grants, p.2.tags ≠ []) :
    applyTagsCall current grants [] = some (computeDesiredTags current grants []) ∧
    (∀ t ∈ current, t ∈ computeDesiredTags current grants []) ∧
    ∀ p ∈ grants, ∀ t ∈ p.2.tags, t ∈ computeDesiredTags current grants [] := by
  refine ⟨?_, ?_, ?_⟩
  · simp [applyTagsCall]
    obtain ⟨⟨a, b⟩, hmem, hne⟩ := h
    exact ⟨a, b, hmem, hne⟩
  · intro t ht
    exact (mem_computeDesiredTags current grants [] t).mpr (Or.inl ⟨ht, by simp⟩)
  · intro p hp t ht
    exact (mem_computeDesiredTags current grants [] t).mpr (Or.inr ⟨p, hp, ht⟩)

/-- C2 amended, witness at the counterexample input. -/
theorem sync_preserves_current_tags_witness :
    applyTagsCall ["tag:admin"]
        [("g1", { tags := ["tag:other"], postureAttributes := [], requesterNodeID := "" })] []
      = some (computeDesiredTags ["tag:admin"]
          [("g1", { tags := ["tag:other"], postureAttributes := [], requesterNodeID := "" })] []) ∧
    "tag:admin" ∈ computeDesiredTags ["tag:admin"]
      [("g1", { tags := ["tag:other"], postureAttributes := [], requesterNodeID := "" })] [] :=
  have h := sync_preserves_current_tags ["tag:admin"]
    [("g1", { tags := ["tag:other"], postureAttributes := [], requesterNodeID := "" })]
    ⟨("g1", { tags := ["tag:other"], postureAttributes := [], requesterNodeID := "" }),
      by decide, by decide⟩
  ⟨h.1, h.2.1 "tag:admin" (by decide)⟩

/-- One selector iteration can only move expiresAt to the event time
plus at most maxDuration, thanks to the extend clamp. -/
theorem activeStep_expiresAt (maxDur : Nat) (h : 0 < maxDur) (s : GrantState) (m t : Nat)
    (ev : ActiveEvent) (hs : s.expiresAt ≤ m + maxDur) :
    (activeStep maxDur s (t, ev)).expiresAt ≤ max m t + maxDur := by
  have hm : s.expiresAt ≤ max m t + maxDur :=
    le_trans hs (Nat.add_le_add_right (Nat.le_max_left m t) maxDur)
  unfold activeStep
  split
  · exact hm
  · cases ev with
    | timerFire => exact hm
    | revoke b r => exact hm
    | extend b d =>
        simp only
        by_cases hd : d > maxDur
        · rw [if_pos ⟨h, hd⟩]
          have : t ≤ max m t := Nat.le_max_right m t
          omega
        · rw [if_neg (by omega)]
          have : t ≤ max m t := Nat.le_max_right m t
          omega

/-- Along any run of the active loop, expiresAt stays below the largest
time seen so far plus maxDuration. -/
theorem runActive_expiresAt_bound (maxDur : Nat) (h : 0 < maxDur) (s : GrantState) (m : Nat)
    (events : List (Nat × ActiveEvent)) (hs : s.expiresAt ≤ m + maxDur) :
    (runActive maxDur s events).expiresAt ≤ eventHorizon m events + maxDur := by
  induction events generalizing s m with
  | nil => simpa [runActive, eventHorizon] using hs
  | cons e rest ih =>
      rw [runActive, List.foldl_cons, eventHorizon, List.foldl_cons]
      exact ih (activeStep maxDur s e) (max m e.1)
        (activeStep_expiresAt maxDur h s m e.1 e.2 hs)

/-- A concrete grant request used by the explicit runs below. -/
def cexRequest : GrantRequest :=
  { id := "g1", requester := "u", requesterNode := "n0", grantTypeName := "t"
    targetNodeID := "d", targetUserID := "", duration := 4, reason := "" }

/-- C1 counterexample: maxDuration 4, activation at time 0 with the
full duration 4, then a legal Extend of 4 processed at time 2.  The
clamp bounds the extension duration, not the absolute expiry, so the
resulting expiresAt 6 exceeds activatedAt plus maxDuration. -/
theorem extend_clamp_counterexample :
    (runActive 4 (activateState (initGrantState cexRequest) 0 4)
        [(2, ActiveEvent.extend "u" 4)]).activatedAt + 4 <
      (runActive 4 (activateState (initGrantState cexRequest) 0 4)
        [(2, ActiveEvent.extend "u" 4)]).expiresAt := by decide

/-- C1 amended: an Extend clamps the requested duration to maxDuration,
so after activation at time act with duration at most maxDuration and
any sequence of timed events, expiresAt never exceeds the largest
event time (floored at the activation time) plus maxDuration.  The
original bound activatedAt plus maxDuration does not hold. -/
theorem extend_clamp_horizon (maxDur act dur : Nat) (s0 : GrantState)
    (events : List (Nat × ActiveEvent)) (h1 : 0 < maxDur) (h2 : dur ≤ maxDur) :
    (runActive maxDur (activateState s0 act dur) events).expiresAt ≤
      eventHorizon act events + maxDur :=
  runActive_expiresAt_bound maxDur h1 (activateState s0 act dur) act events
    (by simp [activateState]; omega)

/-- C1 amended, witness with an over-long extension request that gets
clamped. -/
theorem extend_clamp_horizon_witness :
    (runActive 4 (activateState (initGrantState cexRequest) 0 4)
        [(2, ActiveEvent.extend "u" 9)]).expiresAt ≤
      eventHorizon 0 [(2, ActiveEvent.extend "u" 9)] + 4 :=
  extend_clamp_horizon 4 0 4 (initGrantState cexRequest)
    [(2, ActiveEvent.extend "u" 9)] (by decide) (by decide)

/-- If the approval gate resolves approved, the approver differs from
the requester: every self-approval arm returns before deciding. -/
theorem runApproval_approved_ne (approvers : List String) (requester : String)
    (events : List ApprovalEvent) (r : ApprovalResult)
    (h : runApproval approvers requester events = some r) (ha : r.approved = true) :
    r.approvedBy ≠ requester := by
  induction events with
  | nil => simp [runApproval] at h
  | cons e tail ih =>
      cases e with
      | approve b =>
          by_cases hb : b = requester
          · rw [hb] at h
            rw [runApproval, if_pos rfl] at h
            exact ih h
          · by_cases hm : ¬ b ∈ approvers ∧ approvers ≠ []
            · rw [runApproval, if_neg hb, if_pos hm] at h
              exact ih h
            · rw [runApproval, if_neg hb, if_neg hm] at h
              obtain rfl := Option.some.inj h
              simpa using hb
      | deny b reason2 =>
          rw [runApproval] at h
          obtain rfl := Option.some.inj h
          simp at ha
      | timerFire =>
          rw [runApproval] at h
          obtain rfl := Option.some.inj h
          simp at ha

/-- C3: an Approve signal whose caller equals the requester does not
consume the gate: the run over the remaining events is unchanged, and
no run ever resolves approved with the requester as approver. -/
theorem approval_self_rejected (approvers : List String) (requester : String)
    (rest : List ApprovalEvent) :
    runApproval approvers requester (ApprovalEvent.approve requester :: rest) =
      runApproval approvers requester rest ∧
    ∀ events r, runApproval approvers requester events = some r → r.approved = true →
      r.approvedBy ≠ requester := by
  constructor
  · rw [runApproval, if_pos rfl]
  · exact fun events r h ha => runApproval_approved_ne approvers requester events r h ha

/-- C3 witness: a self-approval followed by a valid approval behaves
like the valid approval alone, and the resolved approver is not the
requester. -/
theorem approval_self_rejected_witness :
    runApproval ["a"] "u" [ApprovalEvent.approve "u", ApprovalEvent.approve "a"] =
      runApproval ["a"] "u" [ApprovalEvent.approve "a"] ∧
    ({ approved := true, approvedBy := "a", deniedBy := "", reason := "" } :
      ApprovalResult).approvedBy ≠ "u" :=
  ⟨(approval_self_rejected ["a"] "u" [ApprovalEvent.approve "a"]).1,
   (approval_self_rejected ["a"] "u" []).2 [ApprovalEvent.approve "a"]
     { approved := true, approvedBy := "a", deniedBy := "", reason := "" }
     (by decide) (by decide)⟩

/-- C5: the tag manager loop completes only with an empty active-grant
map; a continue-as-new restart always carries a non-empty map, and when
at least one signal was processed and the loop is still running the map
is non-empty. -/
theorem tagManager_exit_condition (s : DeviceTagManagerState) (n : Nat)
    (sigs : List TagManagerSignal) (s' : DeviceTagManagerState) :
    (runTagManager s n sigs = ManagerOutcome.completed s' → s'.activeGrants = []) ∧
    (runTagManager s n sigs = ManagerOutcome.continuedAsNew s' → s'.activeGrants ≠ []) ∧
    (sigs ≠ [] → runTagManager s n sigs = ManagerOutcome.running s' → s'.activeGrants ≠ []) := by
  induction sigs generalizing s n with
  | nil =>
      refine ⟨?_, ?_, ?_⟩
      · intro h; simp [runTagManager] at h
      · intro h; simp [runTagManager] at h
      · intro hne; exact absurd rfl hne
  | cons sig rest ih =>
      refine ⟨?_, ?_, ?_⟩
      · intro h
        simp only [runTagManager] at h
        by_cases h0 : (tagManagerHandle s sig).activeGrants.length = 0
        · rw [if_pos h0] at h
          cases h
          exact List.length_eq_zero.mp h0
        · rw [if_neg h0] at h
          by_cases h1 : n + 1 ≥ tagManagerContinueAsNewThreshold
          · rw [if_pos h1] at h; cases h
          · rw [if_neg h1] at h
            exact (ih (tagManagerHandle s sig) (n + 1)).1 h
      · intro h
        simp only [runTagManager] at h
        by_cases h0 : (tagManagerHandle s sig).activeGrants.length = 0
        · rw [if_pos h0] at h; cases h
        · rw [if_neg h0] at h
          by_cases h1 : n + 1 ≥ tagManagerContinueAsNewThreshold
          · rw [if_pos h1] at h
            cases h
            exact fun he => h0 (by simp [he])
          · rw [if_neg h1] at h
            exact (ih (tagManagerHandle s sig) (n + 1)).2.1 h
      · intro hne h
        simp only [runTagManager] at h
        by_cases h0 : (tagManagerHandle s sig).activeGrants.length = 0
        · rw [if_pos h0] at h; cases h
        · rw [if_neg h0] at h
          by_cases h1 : n + 1 ≥ tagManagerContinueAsNewThreshold
          · rw [if_pos h1] at h; cases h
          · rw [if_neg h1] at h
            cases rest with
            | nil =>
                simp only [runTagManager] at h
                cases h
                exact fun he => h0 (by simp [he])
            | cons r2 rest2 =>
                exact (ih (tagManagerHandle s sig) (n + 1)).2.2 (by simp) h

/-- C5 witness: an AddGrant followed by the matching RemoveGrant drives
the manager to completion with an empty map. -/
theorem tagManager_exit_condition_witness :
    (DeviceTagManagerState.mk "D" []).activeGrants = [] :=
  (tagManager_exit_condition (DeviceTagManagerState.mk "D" []) 0
    [TagManagerSignal.add ⟨"g", ["tag:x"], [], "r"⟩, TagManagerSignal.remove "g"]
    (DeviceTagManagerState.mk "D" [])).1 (by decide)

/-- Shape of the reconciler cleanup for a device with grant tags whose
manager is absent at both probes: one SetTags call with the non-grant
tags, then one delete per stale grant-managed posture key. -/
theorem reconcileDevice_stale_eq (grantTagSet grantPostureKeySet : List String)
    (device : DeviceInfo) (keys : List String)
    (q : Option (List (String × GrantAssets)))
    (hg : ¬ (device.tags.filter (fun t => decide (t ∈ grantTagSet))).isEmpty = true) :
    reconcileDevice grantTagSet grantPostureKeySet device (some keys) false false q =
      ReconcileAction.setTags device.nodeID
          (device.tags.filter (fun t => decide (t ∉ grantTagSet)))
        :: (if grantPostureKeySet.isEmpty then []
            else keys.filter (fun k => decide (k ∈ grantPostureKeySet))).map
          (fun k => ReconcileAction.deletePosture device.nodeID k) := by
  unfold reconcileDevice partitionTags
  simp [hg]

/-- C6: for a device with at least one configured grant tag whose tag
manager is found not running at both probes, the sweep issues a SetTags
call with exactly the tags outside the grant set and deletes every
grant-managed posture key found on the device. -/
theorem reconcile_stale_cleanup (grantTagSet grantPostureKeySet : List String)
    (device : DeviceInfo) (keys : List String)
    (q : Option (List (String × GrantAssets)))
    (hg : ∃ t ∈ device.tags, t ∈ grantTagSet) :
    ReconcileAction.setTags device.nodeID
        (device.tags.filter (fun t => decide (t ∉ grantTagSet))) ∈
      reconcileDevice grantTagSet grantPostureKeySet device (some keys) false false q ∧
    ∀ k ∈ keys, k ∈ grantPostureKeySet →
      ReconcileAction.deletePosture device.nodeID k ∈
        reconcileDevice grantTagSet grantPostureKeySet device (some keys) false false q := by
  have hne : ¬ (device.tags.filter (fun t => decide (t ∈ grantTagSet))).isEmpty = true := by
    obtain ⟨t, ht, htg⟩ := hg
    simp [List.isEmpty_iff, List.filter_eq_nil_iff]
    exact ⟨t, ht, htg⟩
  rw [reconcileDevice_stale_eq grantTagSet grantPostureKeySet device keys q hne]
  constructor
  · exact List.mem_cons_self _ _
  · intro k hk hkset
    have hnemp : ¬ grantPostureKeySet.isEmpty = true := by
      cases grantPostureKeySet with
      | nil => cases hkset
      | cons a l => simp
    rw [if_neg hnemp]
    exact List.mem_cons_of_mem _ (List.mem_map_of_mem _ (by simp [hk, hkset]))

/-- C6 witness: a device carrying one grant tag and one external tag,
with one stale grant-managed posture key, is cleaned up when the
manager is absent twice. -/
theorem reconcile_stale_cleanup_witness :
    ReconcileAction.setTags "D"
        ((["tag:grantable", "tag:ext"] : List String).filter
          (fun t => decide (t ∉ (["tag:grantable"] : List String)))) ∈
      reconcileDevice ["tag:grantable"] ["custom:jit"]
        { nodeID := "D", tags := ["tag:grantable", "tag:ext"] }
        (some ["custom:jit", "custom:other"]) false false none ∧
    ∀ k ∈ (["custom:jit", "custom:other"] : List String), k ∈ (["custom:jit"] : List String) →
      ReconcileAction.deletePosture "D" k ∈
        reconcileDevice ["tag:grantable"] ["custom:jit"]
          { nodeID := "D", tags := ["tag:grantable", "tag:ext"] }
          (some ["custom:jit", "custom:other"]) false false none :=
  reconcile_stale_cleanup ["tag:grantable"] ["custom:jit"]
    { nodeID := "D", tags := ["tag:grantable", "tag:ext"] }
    ["custom:jit", "custom:other"] none (by decide)

/-- C8: an attribute of the removed grant is orphaned, and hence
deleted on RemoveGrant, exactly when its resolved device and key pair
is claimed by no remaining active grant; a pair claimed by a remaining
grant is preserved, and the same key resolving to a different device
does not count as claimed. -/
theorem orphaned_iff_unclaimed (removed : GrantAssets) (active : List (String × GrantAssets))
    (targetNodeID : String) (pa : PostureAttribute)
    (hpa : pa ∈ removed.postureAttributes) :
    pa ∈ orphanedPostureAttributes removed active targetNodeID ↔
      ¬ ∃ g ∈ active, ∃ pa2 ∈ g.2.postureAttributes,
        resolvePostureTarget targetNodeID pa2 g.2.requesterNodeID =
          resolvePostureTarget targetNodeID pa removed.requesterNodeID ∧ pa2.key = pa.key := by
  unfold orphanedPostureAttributes
  simp [List.mem_filter, hpa, List.mem_flatMap, Prod.ext_iff]

/-- A requester-scoped posture attribute used by the witness below. -/
def paJit : PostureAttribute := { key := "custom:jit", value := "v", target := "requester" }

/-- C8 witness: the same key on a different requester device does not
count as claimed, so the removed attribute is orphaned. -/
theorem orphaned_iff_unclaimed_witness :
    paJit ∈ orphanedPostureAttributes (GrantAssets.mk [] [paJit] "req-1")
        [("g2", GrantAssets.mk [] [paJit] "req-2")] "target-1" ↔
      ¬ ∃ g ∈ [("g2", GrantAssets.mk [] [paJit] "req-2")],
        ∃ pa2 ∈ g.2.postureAttributes,
          resolvePostureTarget "target-1" pa2 g.2.requesterNodeID =
            resolvePostureTarget "target-1" paJit
              (GrantAssets.mk [] [paJit] "req-1").requesterNodeID ∧ pa2.key = paJit.key :=
  orphaned_iff_unclaimed (GrantAssets.mk [] [paJit] "req-1")
    [("g2", GrantAssets.mk [] [paJit] "req-2")] "target-1" paJit (by decide)

/-- Outcome of a tag grant whose signal-with-start activity fails after
retries. -/
theorem activate_tag_fail (req : GrantRequest) (gt : GrantType) (env : GrantEnv)
    (st0 : GrantState)
    (ht : (if gt.action = "" then actionTag else gt.action) = actionTag)
    (hsig : env.signalTagMgrOk = false) :
    grantWorkflowActivate req gt env st0 =
      { state := st0, error := some "signal-with-start tag manager"
        effects := [EffectAction.signalAddGrant req.targetNodeID
          ⟨req.id, gt.tags, gt.postureAttributes, req.requesterNode⟩]
        reverts := [] } := by
  simp [grantWorkflowActivate, phase3, ht, hsig]

/-- Outcome of a user-role grant whose GetUser or SetUserRole activity
fails after retries (or whose role configuration is missing). -/
theorem activate_userRole_fail (req : GrantRequest) (gt : GrantType) (env : GrantEnv)
    (st0 : GrantState) (hact : gt.action = actionUserRole)
    (hfail : env.getUserResult = none ∨ env.setRoleOk = false) :
    (grantWorkflowActivate req gt env st0).error.isSome = true ∧
    (grantWorkflowActivate req gt env st0).state.status = st0.status ∧
    (grantWorkflowActivate req gt env st0).reverts = [] := by
  rcases hfail with hu | hs
  · simp [grantWorkflowActivate, phase3, hact, actionTag, actionUserRole, hu]
    cases gt.userAction with
    | none => simp
    | some ua => simp [hu]
  · simp [grantWorkflowActivate, phase3, hact, actionTag, actionUserRole, hs]
    cases gt.userAction with
    | none => simp
    | some ua =>
        cases hu : env.getUserResult with
        | none => simp
        | some user => simp [hs]

/-- Outcome of a user-restore grant whose RestoreUser activity fails
after retries. -/
theorem activate_userRestore_fail (req : GrantRequest) (gt : GrantType) (env : GrantEnv)
    (st0 : GrantState) (hact : gt.action = actionUserRestore)
    (hr : env.restoreOk = false) :
    (grantWorkflowActivate req gt env st0).error.isSome = true ∧
    (grantWorkflowActivate req gt env st0).state.status = st0.status ∧
    (grantWorkflowActivate req gt env st0).reverts = [] := by
  simp [grantWorkflowActivate, phase3, hact, actionTag, actionUserRole, actionUserRestore, hr]

/-- C7: when effect application fails after retries for any of the
three action kinds, GrantWorkflow returns an error, the status is still
pendingApproval (never active), and no reversal call is issued. -/
theorem phase3_failure_safe (req : GrantRequest) (gt : GrantType) (env : GrantEnv)
    (happ : gt.riskLevel.toNat > RiskLevel.low.toNat → env.approval.approved = true)
    (hfail :
      ((if gt.action = "" then actionTag else gt.action) = actionTag ∧
        env.signalTagMgrOk = false) ∨
      ((if gt.action = "" then actionTag else gt.action) = actionUserRole ∧
        (env.getUserResult = none ∨ env.setRoleOk = false)) ∨
      ((if gt.action = "" then actionTag else gt.action) = actionUserRestore ∧
        env.restoreOk = false)) :
    (grantWorkflow req gt env).error.isSome = true ∧
    (grantWorkflow req gt env).state.status = GrantStatus.pendingApproval ∧
    (grantWorkflow req gt env).reverts = [] := by
  have key : ∀ st0 : GrantState, st0.status = GrantStatus.pendingApproval →
      (grantWorkflowActivate req gt env st0).error.isSome = true ∧
      (grantWorkflowActivate req gt env st0).state.status = GrantStatus.pendingApproval ∧
      (grantWorkflowActivate req gt env st0).reverts = [] := by
    intro st0 hst
    rcases hfail with ⟨ht, hsig⟩ | ⟨hu, hfail2⟩ | ⟨hrr, hrest⟩
    · rw [activate_tag_fail req gt env st0 ht hsig]
      exact ⟨rfl, hst, rfl⟩
    · have hact : gt.action = actionUserRole := by
        by_cases h0 : gt.action = ""
        · rw [if_pos h0] at hu; exact absurd hu (by decide)
        · rwa [if_neg h0] at hu
      have h := activate_userRole_fail req gt env st0 hact hfail2
      exact ⟨h.1, hst ▸ h.2.1, h.2.2⟩
    · have hact : gt.action = actionUserRestore := by
        by_cases h0 : gt.action = ""
        · rw [if_pos h0] at hrr; exact absurd hrr (by decide)
        · rwa [if_neg h0] at hrr
      have h := activate_userRestore_fail req gt env st0 hact hrest
      exact ⟨h.1, hst ▸ h.2.1, h.2.2⟩
  unfold grantWorkflow
  by_cases hr : gt.riskLevel.toNat > RiskLevel.low.toNat
  · rw [if_pos hr, if_neg (by simp [happ hr])]
    exact key _ rfl
  · rw [if_neg hr]
    exact key _ rfl

/-- A low-risk tag grant type for the concrete runs below. -/
def failGrantType : GrantType :=
  { name := "read", description := "", tags := ["tag:read"], postureAttributes := []
    maxDuration := 14400, riskLevel := RiskLevel.low, approvers := [], action := ""
    userAction := none }

/-- An environment whose signal-with-start activity fails after
retries. -/
def failEnv : GrantEnv :=
  { approval := ⟨true, "a", "", ""⟩, signalTagMgrOk := false, getUserResult := none
    setRoleOk := true, restoreOk := true, activationTime := 0, events := [] }

/-- C7 witness: a failing tag activation leaves the grant pending with
an error and no reversal. -/
theorem phase3_failure_safe_witness :
    (grantWorkflow cexRequest failGrantType failEnv).error.isSome = true ∧
    (grantWorkflow cexRequest failGrantType failEnv).state.status =
      GrantStatus.pendingApproval ∧
    (grantWorkflow cexRequest failGrantType failEnv).reverts = [] :=
  phase3_failure_safe cexRequest failGrantType failEnv (by decide) (by decide)

/-- A high-risk tag grant type used by the denial runs below. -/
def deniedGrantType : GrantType :=
  { name := "admin", description := "", tags := ["tag:admin"], postureAttributes := []
    maxDuration := 14400, riskLevel := RiskLevel.high, approvers := ["a"], action := ""
    userAction := none }

/-- An environment whose approval gate resolves denied by alice. -/
def deniedEnv1 : GrantEnv :=
  { approval := ⟨false, "", "alice", "insufficient justification"⟩, signalTagMgrOk := true
    getUserResult := none, setRoleOk := true, restoreOk := true, activationTime := 0
    events := [] }

/-- An environment whose approval gate resolves denied by bob, with a
different reason. -/
def deniedEnv2 : GrantEnv :=
  { approval := ⟨false, "", "bob", "other reason"⟩, signalTagMgrOk := true
    getUserResult := none, setRoleOk := true, restoreOk := true, activationTime := 0
    events := [] }

/-- C9 counterexample: two denial runs differing only in deniedBy and
reason produce identical outcomes, including the final GrantState, so
the denier and the denial reason are not recorded in the returned
GrantState (which has no such fields). -/
theorem denied_fields_not_recorded :
    grantWorkflow cexRequest deniedGrantType deniedEnv1 =
      grantWorkflow cexRequest deniedGrantType deniedEnv2 ∧
    deniedEnv1.approval.deniedBy ≠ deniedEnv2.approval.deniedBy ∧
    deniedEnv1.approval.reason ≠ deniedEnv2.approval.reason := by
  refine ⟨?_, by decide, by decide⟩
  decide

/-- C9 amended: when the gate resolves denied, GrantWorkflow returns
the initial state with status denied and no error, and issues no effect
and no reversal; deniedBy and the reason are only logged and carried in
the child result, not recorded in the returned GrantState. -/
theorem denied_terminates_clean (req : GrantRequest) (gt : GrantType) (env : GrantEnv)
    (hrisk : gt.riskLevel.toNat > RiskLevel.low.toNat)
    (hden : env.approval.approved = false) :
    grantWorkflow req gt env =
      { state := { initGrantState req with status := GrantStatus.denied }
        error := none, effects := [], reverts := [] } := by
  unfold grantWorkflow
  rw [if_pos hrisk, if_pos (by simp [hden])]

/-- C9 amended, witness at the denial run above. -/
theorem denied_terminates_clean_witness :
    grantWorkflow cexRequest deniedGrantType deniedEnv1 =
      { state := { initGrantState cexRequest with status := GrantStatus.denied }
        error := none, effects := [], reverts := [] } :=
  denied_terminates_clean cexRequest deniedGrantType deniedEnv1 (by decide) (by decide)

/-- A grant type configuration with one valid tag, no approvers and a
caller-chosen risk level string. -/
def riskCfg (s : String) : GrantTypeConfig :=
  { name := "ssh", description := "", tags := ["tag:ssh"], postureAttributes := []
    maxDuration := "4h", riskLevel := s, approvers := [], action := ""
    userAction := none }

/-- A duration parser accepting only the literal 4h, standing in for
the standard library duration parser on this configuration. -/
def parseDur4h : String → Option Nat := fun d => if d = "4h" then some 14400 else none

/-- C10: any risk level string whose trimmed, lowercased form is
neither medium nor high parses as low, and a grant type configured with
such a string and no approvers is accepted at config load as a low-risk
grant type rather than rejected. -/
theorem parseRiskLevel_default_low (s : String)
    (h1 : trimLower s ≠ "medium".data) (h2 : trimLower s ≠ "high".data) :
    ParseRiskLevel s = RiskLevel.low ∧
    NewYAMLGrantTypeStore parseDur4h [riskCfg s] =
      Except.ok [{ name := "ssh", description := "", tags := ["tag:ssh"]
                   postureAttributes := [], maxDuration := 14400
                   riskLevel := RiskLevel.low, approvers := [], action := actionTag
                   userAction := none }] := by
  have hp : ParseRiskLevel s = RiskLevel.low := by
    simp [ParseRiskLevel, h1, h2]
  refine ⟨hp, ?_⟩
  simp [NewYAMLGrantTypeStore, buildGrantType, riskCfg, parseDur4h, hp, validateAll,
    validateTag, actionTag, isAlphaChar, isNumChar, RiskLevel.toNat,
    convertPostureAttributes, hasPrefixChars]

/-- C10 witness: the misspelled risk level hgih loads as low risk with
no approvers required. -/
theorem parseRiskLevel_default_low_witness :
    ParseRiskLevel "hgih" = RiskLevel.low ∧
    NewYAMLGrantTypeStore parseDur4h [riskCfg "hgih"] =
      Except.ok [{ name := "ssh", description := "", tags := ["tag:ssh"]
                   postureAttributes := [], maxDuration := 14400
                   riskLevel := RiskLevel.low, approvers := [], action := actionTag
                   userAction := none }] :=
  parseRiskLevel_default_low "hgih" (by decide) (by decide)

end TailGrant
